import Mathlib

/-!
Verification development for the home-net NAS monitor
(src/servers/nas-monitor/nas_monitor.py and ups_monitor.py).

The Python sources are shallowly embedded: pure functions become Lean
functions, fallible code returns Option, and the main control loop becomes
a step function over an explicit state record driven by per-tick inputs
(the decoded sample, the wall clock, and oracle results of the remote
calls).

Python float values are modelled exactly.  Every float the monitor handles
is produced by float() on a decimal digit string or by addition and
subtraction of such values, so all of them are exact decimal fractions
mant / 10 ^ exp; they are represented by the type Dec below, whose order
and arithmetic agree with the rational numbers (theorems Dec.le_iff_toRat,
Dec.add_toRat, Dec.sub_toRat).
-/

-- ===========================================================================
-- Exact decimal numbers
-- ===========================================================================

/-- Power of ten as an integer. -/
def pow10 : ℕ → ℤ
  | 0 => 1
  | n + 1 => 10 * pow10 n

/-- Exact decimal fraction: the value is mant / 10 ^ exp.  Not normalised;
structural equality is finer than value equality, and all operations below
are chosen so that equal source computations yield equal representations. -/
@[ext] structure Dec where
  mant : ℤ
  exp : ℕ
deriving DecidableEq

namespace Dec

/-- Rational value of an exact decimal. -/
def toRat (d : Dec) : ℚ := (d.mant : ℚ) / (10 : ℚ) ^ d.exp

/-- Addition of exact decimals over the common denominator. -/
def add (a b : Dec) : Dec :=
  ⟨a.mant * pow10 b.exp + b.mant * pow10 a.exp, a.exp + b.exp⟩

/-- Subtraction of exact decimals over the common denominator. -/
def sub (a b : Dec) : Dec :=
  ⟨a.mant * pow10 b.exp - b.mant * pow10 a.exp, a.exp + b.exp⟩

/-- Order on exact decimals by cross multiplication (denominators are
positive powers of ten). -/
def le (a b : Dec) : Prop := a.mant * pow10 b.exp ≤ b.mant * pow10 a.exp

/-- Strict order on exact decimals by cross multiplication. -/
def lt (a b : Dec) : Prop := a.mant * pow10 b.exp < b.mant * pow10 a.exp

/-- Truncation toward zero, the behaviour of the Python int() constructor
on a float. -/
def trunc (d : Dec) : ℤ := d.mant.tdiv (pow10 d.exp)

instance : Add Dec := ⟨Dec.add⟩

instance : Sub Dec := ⟨Dec.sub⟩

instance : LE Dec := ⟨Dec.le⟩

instance : LT Dec := ⟨Dec.lt⟩

instance (n : ℕ) : OfNat Dec n := ⟨⟨(n : ℤ), 0⟩⟩

instance (a b : Dec) : Decidable (a ≤ b) :=
  inferInstanceAs (Decidable (a.mant * pow10 b.exp ≤ b.mant * pow10 a.exp))

instance (a b : Dec) : Decidable (a < b) :=
  inferInstanceAs (Decidable (a.mant * pow10 b.exp < b.mant * pow10 a.exp))

theorem pow10_eq (n : ℕ) : pow10 n = (10 : ℤ) ^ n := by
  induction n with
  | zero => rfl
  | succ k ih => rw [pow10, ih, pow_succ]; ring

theorem pow10_pos (n : ℕ) : 0 < pow10 n := by
  rw [pow10_eq]; positivity

/-- The order on Dec agrees with the order of the rational values. -/
theorem le_iff_toRat (a b : Dec) : a ≤ b ↔ a.toRat ≤ b.toRat := by
  show a.mant * pow10 b.exp ≤ b.mant * pow10 a.exp ↔ _
  rw [toRat, toRat, div_le_div_iff₀ (by positivity) (by positivity),
    pow10_eq, pow10_eq]
  constructor
  · intro h; exact_mod_cast h
  · intro h; exact_mod_cast h

/-- The strict order on Dec agrees with that of the rational values. -/
theorem lt_iff_toRat (a b : Dec) : a < b ↔ a.toRat < b.toRat := by
  show a.mant * pow10 b.exp < b.mant * pow10 a.exp ↔ _
  rw [toRat, toRat, div_lt_div_iff₀ (by positivity) (by positivity),
    pow10_eq, pow10_eq]
  constructor
  · intro h; exact_mod_cast h
  · intro h; exact_mod_cast h

/-- Addition of Dec agrees with rational addition. -/
theorem add_toRat (a b : Dec) : (a + b).toRat = a.toRat + b.toRat := by
  show (Dec.add a b).toRat = _
  rw [Dec.add, toRat, toRat, toRat]
  push_cast [pow10_eq, pow_add]
  field_simp

/-- Subtraction of Dec agrees with rational subtraction. -/
theorem sub_toRat (a b : Dec) : (a - b).toRat = a.toRat - b.toRat := by
  show (Dec.sub a b).toRat = _
  rw [Dec.sub, toRat, toRat, toRat]
  push_cast [pow10_eq, pow_add]
  field_simp
  ring

end Dec

-- ===========================================================================
-- Models of the Python runtime primitives used by the sources
-- ===========================================================================

/-- Whitespace characters recognised by the Python str.split() method
(ASCII range). -/
def isPySpace (c : Char) : Bool :=
  c == ' ' || c == '\t' || c == '\n' || c == '\r' || c == '\x0b' || c == '\x0c'

/-- Helper for pySplit: accumulate the current token (reversed) while
scanning the character list. -/
def splitWsAux : List Char → List Char → List String
  | [], [] => []
  | [], acc => [String.mk acc.reverse]
  | c :: cs, acc =>
    if isPySpace c then
      match acc with
      | [] => splitWsAux cs []
      | _ :: _ => String.mk acc.reverse :: splitWsAux cs []
    else splitWsAux cs (c :: acc)

/-- Model of Python str.split() with no argument: split on runs of
whitespace, discarding empty tokens. -/
def pySplit (s : String) : List String := splitWsAux s.data []

/-- Model of Python str.strip() with no argument: drop whitespace from both
ends. -/
def pyStrip (s : String) : String :=
  String.mk ((s.data.dropWhile isPySpace).reverse.dropWhile isPySpace).reverse

/-- Numeric value of a list of decimal digit characters, most significant
first. -/
def digitsVal (ds : List Char) : ℕ :=
  ds.foldl (fun a c => 10 * a + (c.toNat - 48)) 0

/-- Split an optional single leading sign off a character list; the Bool
result is true for a negative sign. -/
def splitSign : List Char → Bool × List Char
  | '+' :: rest => (false, rest)
  | '-' :: rest => (true, rest)
  | cs => (false, cs)

/-- Model of the Python float() constructor restricted to the strings that
reach it in the sources: strings over the alphabet of digits, a dot, and
sign characters (the output alphabet of the NUM_RE cleaning regex).
Python accepts an optional single leading sign followed by digits holding
at most one dot and at least one digit; anything else raises ValueError,
modelled as none.  The numeric value is exact: the decimal fraction
digits.frac with value (digits * 10 ^ k + frac) / 10 ^ k. -/
def pyFloatOfCleaned (s : String) : Option Dec :=
  let (isNeg, body) := splitSign s.data
  if (body.all fun c => c.isDigit || c == '.') ∧ (body.any Char.isDigit) ∧
      (body.filter fun c => c == '.').length ≤ 1 then
    let intPart := body.takeWhile fun c => c != '.'
    let fracPart := (body.dropWhile fun c => c != '.').drop 1
    let m : ℤ := (digitsVal intPart : ℤ) * pow10 fracPart.length + (digitsVal fracPart : ℤ)
    some ⟨if isNeg then -m else m, fracPart.length⟩
  else none

/-- Boolean test that the first list is a prefix of the second. -/
def isPrefixOfB : List Char → List Char → Bool
  | [], _ => true
  | _ :: _, [] => false
  | a :: as, b :: bs => a == b && isPrefixOfB as bs

/-- Boolean test that the first list occurs as a contiguous sublist of the
second, modelling the Python membership test on strings. -/
def containsSub : List Char → List Char → Bool
  | n, [] => n.isEmpty
  | n, h :: t => isPrefixOfB n (h :: t) || containsSub n t

-- ===========================================================================
-- Megatec Q1 status sample (shared result shape of both decoders)
-- ===========================================================================

/-- Decoded Megatec Q1 status sample: the dictionary returned by
parse_megatec_q1 in both nas_monitor.py and ups_monitor.py. -/
structure Q1Sample where
  input_voltage : Dec
  input_fault_voltage : Dec
  output_voltage : Dec
  load_percent : ℤ
  input_frequency : Dec
  battery_voltage : Dec
  temperature_c : Dec
  flags_raw : String
  on_battery : Bool
  battery_low : Bool
  avr_active : Bool
  ups_failed : Bool
  standby_type : Bool
  test_in_progress : Bool
  shutdown_active : Bool
  beeper_on : Bool
deriving DecidableEq

namespace NasMonitor

/-- Model of NUM_RE.sub applied to a token in nas_monitor.py (line 792):
keep only digits, dot, plus and minus. -/
def cleanToken (token : String) : String :=
  String.mk (token.data.filter fun c => c.isDigit || c == '.' || c == '+' || c == '-')

/-- Model of clean_num in nas_monitor.py (lines 785 to 795): strip
non-numeric noise, reject empty or sign-only results, then convert with
float(); a conversion failure is also a ValueError, hence none. -/
def clean_num (token : String) : Option Dec :=
  let cleaned := cleanToken token
  if cleaned = "" ∨ cleaned = "." ∨ cleaned = "+" ∨ cleaned = "-" then none
  else pyFloatOfCleaned cleaned

/-- Model of parse_megatec_q1 in nas_monitor.py (lines 798 to 862):
tokenize, require at least 8 tokens, clean and parse the first 7 numeric
tokens, truncate the 4th to an integer, filter the 8th token down to
binary characters, require exactly 8 bits, and map bit 7 through bit 0 to
the named flags. -/
def parse_megatec_q1 (line : String) : Option Q1Sample :=
  let parts := pySplit line
  if parts.length < 8 then none
  else
    (clean_num (parts.getD 0 "")).bind fun vin =>
    (clean_num (parts.getD 1 "")).bind fun vin_fault =>
    (clean_num (parts.getD 2 "")).bind fun vout =>
    (clean_num (parts.getD 3 "")).bind fun load_q =>
    (clean_num (parts.getD 4 "")).bind fun freq =>
    (clean_num (parts.getD 5 "")).bind fun batt_v =>
    (clean_num (parts.getD 6 "")).bind fun temp_c =>
    let flags := (pyStrip (parts.getD 7 "")).data.filter fun c => c == '0' || c == '1'
    if flags.length = 8 then
      some {
        input_voltage := vin
        input_fault_voltage := vin_fault
        output_voltage := vout
        load_percent := load_q.trunc
        input_frequency := freq
        battery_voltage := batt_v
        temperature_c := temp_c
        flags_raw := String.mk flags
        on_battery := flags.getD 0 '0' == '1'
        battery_low := flags.getD 1 '0' == '1'
        avr_active := flags.getD 2 '0' == '1'
        ups_failed := flags.getD 3 '0' == '1'
        standby_type := flags.getD 4 '0' == '1'
        test_in_progress := flags.getD 5 '0' == '1'
        shutdown_active := flags.getD 6 '0' == '1'
        beeper_on := flags.getD 7 '0' == '1'
      }
    else none

end NasMonitor

namespace UpsMonitor

/-- Model of NUM_RE.sub applied to a token in ups_monitor.py (line 76):
keep only digits, dot, plus and minus. -/
def cleanToken (token : String) : String :=
  String.mk (token.data.filter fun c => c.isDigit || c == '.' || c == '+' || c == '-')

/-- Model of clean_num in ups_monitor.py (lines 74 to 79). -/
def clean_num (token : String) : Option Dec :=
  let cleaned := cleanToken token
  if cleaned = "" ∨ cleaned = "." ∨ cleaned = "+" ∨ cleaned = "-" then none
  else pyFloatOfCleaned cleaned

/-- Model of parse_megatec_q1 in ups_monitor.py (lines 82 to 130). -/
def parse_megatec_q1 (line : String) : Option Q1Sample :=
  let parts := pySplit line
  if parts.length < 8 then none
  else
    (clean_num (parts.getD 0 "")).bind fun vin =>
    (clean_num (parts.getD 1 "")).bind fun vin_fault =>
    (clean_num (parts.getD 2 "")).bind fun vout =>
    (clean_num (parts.getD 3 "")).bind fun load_q =>
    (clean_num (parts.getD 4 "")).bind fun freq =>
    (clean_num (parts.getD 5 "")).bind fun batt_v =>
    (clean_num (parts.getD 6 "")).bind fun temp_c =>
    let flags := (pyStrip (parts.getD 7 "")).data.filter fun c => c == '0' || c == '1'
    if flags.length = 8 then
      some {
        input_voltage := vin
        input_fault_voltage := vin_fault
        output_voltage := vout
        load_percent := load_q.trunc
        input_frequency := freq
        battery_voltage := batt_v
        temperature_c := temp_c
        flags_raw := String.mk flags
        on_battery := flags.getD 0 '0' == '1'
        battery_low := flags.getD 1 '0' == '1'
        avr_active := flags.getD 2 '0' == '1'
        ups_failed := flags.getD 3 '0' == '1'
        standby_type := flags.getD 4 '0' == '1'
        test_in_progress := flags.getD 5 '0' == '1'
        shutdown_active := flags.getD 6 '0' == '1'
        beeper_on := flags.getD 7 '0' == '1'
      }
    else none

end UpsMonitor

-- ===========================================================================
-- Decoder theorems (claims C6, C7, C10)
-- ===========================================================================

/-- Bind of an Option is none whenever the continuation is constantly
none. -/
theorem opt_bind_none {α β : Type} {o : Option α} {f : α → Option β}
    (h : ∀ a, f a = none) : o.bind f = none := by
  cases o with
  | none => rfl
  | some a => exact h a

/-- C6: for every input line the decoder fails (no sample produced) when
whitespace tokenization yields fewer than 8 tokens, or when the 8th token
filtered to binary characters has length other than 8; and a line with
more than 8 tokens whose first 8 tokens are otherwise valid still decodes
successfully, the extra trailing tokens being ignored. -/
theorem c6_decoder_failure_conditions :
    (∀ line : String, (pySplit line).length < 8 →
      NasMonitor.parse_megatec_q1 line = none) ∧
    (∀ line : String,
      ((pyStrip ((pySplit line).getD 7 "")).data.filter
        fun c => c == '0' || c == '1').length ≠ 8 →
      NasMonitor.parse_megatec_q1 line = none) ∧
    (∀ line : String, 8 < (pySplit line).length →
      (∀ i, i < 7 → (NasMonitor.clean_num ((pySplit line).getD i "")).isSome = true) →
      ((pyStrip ((pySplit line).getD 7 "")).data.filter
        fun c => c == '0' || c == '1').length = 8 →
      (NasMonitor.parse_megatec_q1 line).isSome = true) := by
  refine ⟨fun line h => ?_, fun line hflags => ?_, fun line hlen hvalid hflags => ?_⟩
  · simp [NasMonitor.parse_megatec_q1, h]
  · by_cases hlen : (pySplit line).length < 8
    · simp [NasMonitor.parse_megatec_q1, hlen]
    · simp only [List.getD, List.get?_eq_getElem?] at hflags
      simp only [NasMonitor.parse_megatec_q1, if_neg hlen]
      apply opt_bind_none; intro v0
      apply opt_bind_none; intro v1
      apply opt_bind_none; intro v2
      apply opt_bind_none; intro v3
      apply opt_bind_none; intro v4
      apply opt_bind_none; intro v5
      apply opt_bind_none; intro v6
      simp [hflags]
  · have h8 : ¬ (pySplit line).length < 8 := by omega
    simp only [List.getD, List.get?_eq_getElem?] at hflags hvalid
    obtain ⟨v0, hv0⟩ := Option.isSome_iff_exists.mp (hvalid 0 (by omega))
    obtain ⟨v1, hv1⟩ := Option.isSome_iff_exists.mp (hvalid 1 (by omega))
    obtain ⟨v2, hv2⟩ := Option.isSome_iff_exists.mp (hvalid 2 (by omega))
    obtain ⟨v3, hv3⟩ := Option.isSome_iff_exists.mp (hvalid 3 (by omega))
    obtain ⟨v4, hv4⟩ := Option.isSome_iff_exists.mp (hvalid 4 (by omega))
    obtain ⟨v5, hv5⟩ := Option.isSome_iff_exists.mp (hvalid 5 (by omega))
    obtain ⟨v6, hv6⟩ := Option.isSome_iff_exists.mp (hvalid 6 (by omega))
    simp [NasMonitor.parse_megatec_q1, h8, hv0, hv1, hv2, hv3, hv4, hv5, hv6, hflags]

/-- Witness instantiating C6 at concrete lines: a 3-token line fails, an
8-token line with a 4-bit flags token fails, and a 9-token line with valid
leading tokens decodes. -/
theorem c6_decoder_failure_conditions_witness :
    NasMonitor.parse_megatec_q1 "1 2 3" = none ∧
    NasMonitor.parse_megatec_q1 "1 2 3 4 5 6 7 0101" = none ∧
    (NasMonitor.parse_megatec_q1 "1 2 3 4 5 6 7 01010101 junk").isSome = true := by
  refine ⟨c6_decoder_failure_conditions.1 "1 2 3" (by decide),
    c6_decoder_failure_conditions.2.1 "1 2 3 4 5 6 7 0101" (by decide),
    c6_decoder_failure_conditions.2.2 "1 2 3 4 5 6 7 01010101 junk"
      (by decide) ?_ (by decide)⟩
  intro i hi
  interval_cases i <;> decide

/-- C7 counterexample: the decoder does not bound load_percent by 100; the
line below decodes successfully with load_percent equal to 999, refuting
the claimed 0 to 100 range. -/
theorem c7_counterexample :
    ¬ (∀ (line : String) (s : Q1Sample), NasMonitor.parse_megatec_q1 line = some s →
        0 ≤ s.load_percent ∧ s.load_percent ≤ 100) := by
  intro h
  have hp : (NasMonitor.parse_megatec_q1
      "230.0 140.0 230.0 999 50.0 27.4 25.0 00000000").map
      Q1Sample.load_percent = some 999 := by decide
  rcases ho : NasMonitor.parse_megatec_q1
      "230.0 140.0 230.0 999 50.0 27.4 25.0 00000000" with _ | s
  · rw [ho] at hp; exact Option.noConfusion hp
  · rw [ho] at hp
    simp only [Option.map_some'] at hp
    have h2 := (h _ s ho).2
    have h3 : s.load_percent = 999 := by exact_mod_cast Option.some_inj.mp hp
    omega

/-- C7 (amended): for every successfully decoded line, load_percent equals
the 4th token after noise stripping, parsed as a float and truncated
toward zero; the decoder enforces no 0 to 100 range. -/
theorem c7_load_percent_truncation (line : String) (s : Q1Sample)
    (h : NasMonitor.parse_megatec_q1 line = some s) :
    ∃ q : Dec, NasMonitor.clean_num ((pySplit line).getD 3 "") = some q ∧
      s.load_percent = q.trunc := by
  by_cases hlen : (pySplit line).length < 8
  · simp [NasMonitor.parse_megatec_q1, hlen] at h
  · simp only [NasMonitor.parse_megatec_q1, if_neg hlen] at h
    rcases h0 : NasMonitor.clean_num ((pySplit line).getD 0 "") with _ | v0
    · rw [h0] at h; simp at h
    rw [h0] at h; rw [Option.some_bind] at h
    rcases h1 : NasMonitor.clean_num ((pySplit line).getD 1 "") with _ | v1
    · rw [h1] at h; simp at h
    rw [h1] at h; rw [Option.some_bind] at h
    rcases h2 : NasMonitor.clean_num ((pySplit line).getD 2 "") with _ | v2
    · rw [h2] at h; simp at h
    rw [h2] at h; rw [Option.some_bind] at h
    rcases h3 : NasMonitor.clean_num ((pySplit line).getD 3 "") with _ | v3
    · rw [h3] at h; simp at h
    rw [h3] at h; rw [Option.some_bind] at h
    rcases h4 : NasMonitor.clean_num ((pySplit line).getD 4 "") with _ | v4
    · rw [h4] at h; simp at h
    rw [h4] at h; rw [Option.some_bind] at h
    rcases h5 : NasMonitor.clean_num ((pySplit line).getD 5 "") with _ | v5
    · rw [h5] at h; simp at h
    rw [h5] at h; rw [Option.some_bind] at h
    rcases h6 : NasMonitor.clean_num ((pySplit line).getD 6 "") with _ | v6
    · rw [h6] at h; simp at h
    rw [h6] at h; rw [Option.some_bind] at h
    split at h
    · have hs := Option.some_inj.mp h
      exact ⟨v3, rfl, by rw [← hs]⟩
    · simp at h

/-- Concrete decoded sample used to instantiate the amended C7 theorem. -/
def c7Sample : Q1Sample :=
  { input_voltage := ⟨2300, 1⟩, input_fault_voltage := ⟨1400, 1⟩,
    output_voltage := ⟨2300, 1⟩, load_percent := 999,
    input_frequency := ⟨500, 1⟩, battery_voltage := ⟨274, 1⟩,
    temperature_c := ⟨250, 1⟩, flags_raw := "00000000",
    on_battery := false, battery_low := false, avr_active := false,
    ups_failed := false, standby_type := false, test_in_progress := false,
    shutdown_active := false, beeper_on := false }

/-- Witness instantiating the amended C7 theorem at a concrete line. -/
theorem c7_load_percent_truncation_witness :
    ∃ q : Dec, NasMonitor.clean_num
      ((pySplit "230.0 140.0 230.0 999 50.0 27.4 25.0 00000000").getD 3 "") = some q ∧
      c7Sample.load_percent = q.trunc :=
  c7_load_percent_truncation _ c7Sample (by decide)

/-- C10: the Q1 decoder of the merged monitor (nas_monitor.py) and the
decoder of the legacy monitor (ups_monitor.py) are extensionally equal:
the numeric-token cleaners agree on every token and the parsers agree on
every line, failing on the same inputs and producing field-for-field equal
samples on success. -/
theorem c10_decoder_equivalence :
    (∀ token : String, UpsMonitor.clean_num token = NasMonitor.clean_num token) ∧
    (∀ line : String, UpsMonitor.parse_megatec_q1 line = NasMonitor.parse_megatec_q1 line) :=
  ⟨fun _ => rfl, fun _ => rfl⟩

-- ===========================================================================
-- Array status query (claim C8)
-- ===========================================================================

/-- Line-break characters recognised by the Python str.splitlines()
method. -/
def isPyLineBreak (c : Char) : Bool :=
  c == '\n' || c == '\r' || c == '\x0b' || c == '\x0c' ||
  c == '\x1c' || c == '\x1d' || c == '\x1e' || c == '\x85' ||
  c == '\u2028' || c == '\u2029'

/-- Helper for pySplitlines: accumulate the current line (reversed) while
scanning, treating a carriage return followed by a newline as one break. -/
def pySplitlinesAux : List Char → List Char → List String
  | [], [] => []
  | [], acc => [String.mk acc.reverse]
  | '\r' :: '\n' :: cs, acc => String.mk acc.reverse :: pySplitlinesAux cs []
  | c :: cs, acc =>
    if isPyLineBreak c then String.mk acc.reverse :: pySplitlinesAux cs []
    else pySplitlinesAux cs (c :: acc)

/-- Model of Python str.splitlines() with no argument. -/
def pySplitlines (s : String) : List String := pySplitlinesAux s.data []

namespace NasMonitor

/-- Update of the started accumulator for one raw line of the status
output, as computed by get_array_status in nas_monitor.py
(lines 751 to 762): a line starting with mdState= that contains STARTED, or
a line starting with arrayStarted= that contains the quoted substring yes,
sets the accumulator to true. -/
def startedLineUpdate (started : Bool) (raw : String) : Bool :=
  let line := pyStrip raw
  if isPrefixOfB "mdState=".data line.data then
    if containsSub "STARTED".data line.data then true else started
  else if isPrefixOfB "arrayStarted=".data line.data then
    if containsSub "\"yes\"".data line.data then true else started
  else started

/-- Model of the started flag computed by get_array_status in
nas_monitor.py (lines 746 to 762) from the raw stdout of the remote status
command. -/
def startedOfOut (out : String) : Bool :=
  (pySplitlines out).foldl startedLineUpdate false

/-- Modelled from the wording of the specification for comparison with the
source: started is true exactly when some line beginning with mdState=
contains the substring STARTED, or some line beginning with arrayStarted=
has a value (the text after the equals sign) equal to the five-character
string quote yes quote. -/
def specStartedOfOut (out : String) : Bool :=
  (pySplitlines out).any fun raw =>
    let line := pyStrip raw
    (isPrefixOfB "mdState=".data line.data &&
      containsSub "STARTED".data line.data) ||
    (isPrefixOfB "arrayStarted=".data line.data &&
      line.data.drop 13 == "\"yes\"".data)

/-- Per-line predicate of the amended C8 statement: the source tests the
quoted substring yes anywhere in the line, not value equality. -/
def lineIndicatesStarted (raw : String) : Bool :=
  let line := pyStrip raw
  (isPrefixOfB "mdState=".data line.data &&
    containsSub "STARTED".data line.data) ||
  (isPrefixOfB "arrayStarted=".data line.data &&
    containsSub "\"yes\"".data line.data)

end NasMonitor

/-- Two candidate key prefixes with distinct first characters cannot both
be prefixes of the same line. -/
theorem not_both_prefixes {a m : Char} {as ms l : List Char} (hne : m ≠ a)
    (hm : isPrefixOfB (m :: ms) l = true) :
    isPrefixOfB (a :: as) l = false := by
  cases l with
  | nil => rfl
  | cons c cs =>
    simp only [isPrefixOfB, Bool.and_eq_true, beq_iff_eq] at hm
    have hac : (a == c) = false :=
      beq_eq_false_iff_ne.mpr fun h => hne (hm.1.trans h.symm)
    simp [isPrefixOfB, hac]

/-- One fold step of the started accumulator equals the disjunction with
the per-line predicate. -/
theorem startedLineUpdate_eq_or (b : Bool) (raw : String) :
    NasMonitor.startedLineUpdate b raw =
      (b || NasMonitor.lineIndicatesStarted raw) := by
  unfold NasMonitor.startedLineUpdate NasMonitor.lineIndicatesStarted
  by_cases hmd : isPrefixOfB "mdState=".data (pyStrip raw).data = true
  · have has : isPrefixOfB "arrayStarted=".data (pyStrip raw).data = false :=
      not_both_prefixes (by decide) hmd
    simp only [hmd, has, if_true, Bool.false_and, Bool.or_false, Bool.true_and]
    cases hc : containsSub "STARTED".data (pyStrip raw).data <;> simp
  · have hmd' : isPrefixOfB "mdState=".data (pyStrip raw).data = false :=
      Bool.eq_false_iff.mpr hmd
    simp only [hmd', if_false, Bool.false_and, Bool.false_or]
    by_cases has : isPrefixOfB "arrayStarted=".data (pyStrip raw).data = true
    · simp only [has, if_true, Bool.true_and]
      cases hc : containsSub "\"yes\"".data (pyStrip raw).data <;> simp
    · have has' : isPrefixOfB "arrayStarted=".data (pyStrip raw).data = false :=
        Bool.eq_false_iff.mpr has
      simp [has']

/-- The started fold over any list of lines from any accumulator equals
the disjunction of the accumulator with the any-line test. -/
theorem startedFold_eq_any (lines : List String) (b : Bool) :
    lines.foldl NasMonitor.startedLineUpdate b =
      (b || lines.any NasMonitor.lineIndicatesStarted) := by
  induction lines generalizing b with
  | nil => simp
  | cons raw rest ih =>
    simp only [List.foldl_cons, List.any_cons]
    rw [ih, startedLineUpdate_eq_or, Bool.or_assoc]

/-- C8 counterexample: the source sets started on any arrayStarted= line
containing the quoted substring yes, not only when the value equals the
quoted string yes; on the output below the source reports started while
the claimed value-equality reading does not. -/
theorem c8_counterexample :
    NasMonitor.startedOfOut "arrayStarted=[\"yes\"]" = true ∧
    NasMonitor.specStartedOfOut "arrayStarted=[\"yes\"]" = false := by
  constructor <;> decide

/-- C8 (amended): for every raw status-query output string, the computed
started flag is true exactly when some line beginning with mdState=
contains the substring STARTED, or some line beginning with arrayStarted=
contains the quoted substring yes anywhere in the line. -/
theorem c8_started_flag (out : String) :
    NasMonitor.startedOfOut out =
      (pySplitlines out).any NasMonitor.lineIndicatesStarted := by
  unfold NasMonitor.startedOfOut
  rw [startedFold_eq_any, Bool.false_or]

-- ===========================================================================
-- Power state machine: the main control loop of nas_monitor.py
-- ===========================================================================

namespace NasMonitor

/-- Fixed floor between array start attempts, nas_monitor.py line 1109;
a literal in the source, independent of the configuration. -/
def MIN_START_RETRY_INTERVAL : Dec := ⟨60, 0⟩

/-- Configuration values consumed by main_control_loop
(nas_monitor.py lines 1077 to 1083). -/
structure Config where
  ups_poll_interval : Dec
  status_check_interval : Dec
  power_stable_time : Dec
  low_batt_volt : Dec
  extra_low_batt_volt : Dec
  enable_array_voltage : Dec
deriving DecidableEq

/-- Mutable state of main_control_loop across ticks
(nas_monitor.py lines 1099 to 1113). -/
structure LoopState where
  last_on_battery : Option Bool
  stable_mains_time : Dec
  last_status_check_ts : Dec
  last_start_attempt_ts : Dec
  array_stopped_this_outage : Bool
  nas_shutdown_this_outage : Bool
deriving DecidableEq

/-- Observable remote calls and status observations made during one tick. -/
structure TickEvents where
  stop_attempted : Bool := false
  shutdown_attempted : Bool := false
  start_attempted : Bool := false
  status_checked : Bool := false
  status_started : Bool := false
deriving DecidableEq

/-- Input of one loop iteration.  fail covers the two early-exit paths of
the source (device discovery failure at lines 1120 to 1128 and read or
decode failure at lines 1131 to 1146), both of which sleep and continue
without touching the state modelled here.  ok carries the decoded sample,
the wall-clock time of the tick, the oracle results of the three remote
actions (used only when the corresponding call is made), and the started
value the status query would report if performed this tick. -/
inductive Tick where
  | fail
  | ok (sample : Q1Sample) (now : Dec) (stop_ok : Bool) (start_ok : Bool)
      (shutdown_ok : Bool) (status_started : Bool)

/-- Edge detection between mains and battery
(nas_monitor.py lines 1152 to 1170): on a battery-to-mains transition the
stability timer is reset; on a mains-to-battery transition the per-outage
flags are cleared and the stability timer is reset; otherwise the state is
unchanged. -/
def edgeUpdate (s : LoopState) (on_battery : Bool) : LoopState :=
  match s.last_on_battery with
  | none => s
  | some last =>
    if last && !on_battery then { s with stable_mains_time := 0 }
    else if !last && on_battery then
      { s with array_stopped_this_outage := false,
               nas_shutdown_this_outage := false,
               stable_mains_time := 0 }
    else s

/-- Branch taken while on battery (nas_monitor.py lines 1177 to 1219):
zero the stability timer, request an array stop when below the low
threshold and not yet stopped this outage (setting the flag only on
success), and likewise request a shutdown below the extra-low threshold. -/
def batteryBranch (cfg : Config) (s : LoopState) (batt_v : Dec)
    (stop_ok shutdown_ok : Bool) : LoopState × TickEvents :=
  let s1 := { s with stable_mains_time := 0 }
  let doStop := !s1.array_stopped_this_outage && decide (batt_v ≤ cfg.low_batt_volt)
  let s2 := if doStop && stop_ok then
    { s1 with array_stopped_this_outage := true } else s1
  let doShut := !s2.nas_shutdown_this_outage &&
    decide (batt_v ≤ cfg.extra_low_batt_volt)
  let s3 := if doShut && shutdown_ok then
    { s2 with nas_shutdown_this_outage := true } else s2
  (s3, { stop_attempted := doStop, shutdown_attempted := doShut })

/-- Branch taken while on mains (nas_monitor.py lines 1224 to 1268):
accrue or reset the stability timer by the voltage check, then attempt an
array start when the accrued time reaches the configured requirement and
the fixed retry interval has elapsed, recording the attempt time before
and regardless of the outcome of the call. -/
def mainsBranch (cfg : Config) (s : LoopState) (batt_v now : Dec) :
    LoopState × TickEvents :=
  let s1 := if cfg.enable_array_voltage ≤ batt_v
    then { s with stable_mains_time := s.stable_mains_time + cfg.ups_poll_interval }
    else { s with stable_mains_time := 0 }
  let doStart := decide (cfg.power_stable_time ≤ s1.stable_mains_time) &&
    decide (MIN_START_RETRY_INTERVAL ≤ now - s1.last_start_attempt_ts)
  let s2 := if doStart then { s1 with last_start_attempt_ts := now } else s1
  (s2, { start_attempted := doStart })

/-- Periodic array status check (nas_monitor.py lines 1273 to 1287),
performed after the power logic on every successful tick: when the check
interval has elapsed, record the check time and observe the started value;
the observation feeds logging and telemetry only. -/
def statusCheck (cfg : Config) (s : LoopState) (now : Dec)
    (status_started : Bool) (e : TickEvents) : LoopState × TickEvents :=
  if cfg.status_check_interval ≤ now - s.last_status_check_ts then
    ({ s with last_status_check_ts := now },
     { e with status_checked := true, status_started := status_started })
  else (s, e)

/-- One iteration of main_control_loop (nas_monitor.py lines 1116 to
1292) over the state modelled here.  On a failed tick the source sleeps
and continues, leaving every modelled field untouched and performing no
remote call; on a successful tick it runs edge detection, one of the two
power branches, and the periodic status check. -/
def step (cfg : Config) (s : LoopState) : Tick → LoopState × TickEvents
  | Tick.fail => (s, {})
  | Tick.ok sample now stop_ok _ shutdown_ok status_started =>
    let s1 := edgeUpdate s sample.on_battery
    let s2 := { s1 with last_on_battery := some sample.on_battery }
    let (s3, e) :=
      if sample.on_battery then
        batteryBranch cfg s2 sample.battery_voltage stop_ok shutdown_ok
      else mainsBranch cfg s2 sample.battery_voltage now
    statusCheck cfg s3 now status_started e

/-- Run of the control loop over a list of tick inputs, returning the
final state and the per-tick events in order. -/
def runLoop (cfg : Config) : LoopState → List Tick → LoopState × List TickEvents
  | s, [] => (s, [])
  | s, t :: ts =>
    let r1 := step cfg s t
    let r2 := runLoop cfg r1.1 ts
    (r2.1, r1.2 :: r2.2)

/-- Initial state of main_control_loop (nas_monitor.py lines 1099 to
1113); the status check timestamp starts at the wall clock of process
start, the start attempt timestamp at zero. -/
def initState (t0 : Dec) : LoopState :=
  { last_on_battery := none, stable_mains_time := 0,
    last_status_check_ts := t0, last_start_attempt_ts := 0,
    array_stopped_this_outage := false, nas_shutdown_this_outage := false }

/-- Number of array-stop invocations in a list of tick events. -/
def countStops (es : List TickEvents) : ℕ :=
  es.countP fun e => e.stop_attempted

/-- Number of shutdown invocations in a list of tick events. -/
def countShutdowns (es : List TickEvents) : ℕ :=
  es.countP fun e => e.shutdown_attempted

/-- Number of array-start invocations in a list of tick events. -/
def countStarts (es : List TickEvents) : ℕ :=
  es.countP fun e => e.start_attempted

/-- Sample with the given power-state flag and battery voltage and fixed
nominal values elsewhere, for concrete scenarios. -/
def mkSample (ob : Bool) (v : Dec) : Q1Sample :=
  { input_voltage := ⟨2300, 1⟩, input_fault_voltage := ⟨2300, 1⟩,
    output_voltage := ⟨2300, 1⟩, load_percent := 20,
    input_frequency := ⟨500, 1⟩, battery_voltage := v,
    temperature_c := ⟨250, 1⟩, flags_raw := if ob then "10000000" else "00000000",
    on_battery := ob, battery_low := false, avr_active := false,
    ups_failed := false, standby_type := false, test_in_progress := false,
    shutdown_active := false, beeper_on := false }

/-- Tick classifier for episode reasoning: a failed tick does not end an
on-battery episode, and a successful tick continues it exactly when its
sample is on battery. -/
def tickInEpisode : Tick → Bool
  | Tick.fail => true
  | Tick.ok sample _ _ _ _ _ => sample.on_battery

end NasMonitor

-- ===========================================================================
-- Characterisation lemmas for the step function
-- ===========================================================================

namespace NasMonitor

theorem statusCheck_fst_fields (cfg : Config) (s : LoopState) (now : Dec)
    (b : Bool) (e : TickEvents) :
    (statusCheck cfg s now b e).1.last_on_battery = s.last_on_battery ∧
    (statusCheck cfg s now b e).1.stable_mains_time = s.stable_mains_time ∧
    (statusCheck cfg s now b e).1.last_start_attempt_ts = s.last_start_attempt_ts ∧
    (statusCheck cfg s now b e).1.array_stopped_this_outage = s.array_stopped_this_outage ∧
    (statusCheck cfg s now b e).1.nas_shutdown_this_outage = s.nas_shutdown_this_outage := by
  unfold statusCheck; split <;> exact ⟨rfl, rfl, rfl, rfl, rfl⟩

theorem statusCheck_snd_fields (cfg : Config) (s : LoopState) (now : Dec)
    (b : Bool) (e : TickEvents) :
    (statusCheck cfg s now b e).2.stop_attempted = e.stop_attempted ∧
    (statusCheck cfg s now b e).2.shutdown_attempted = e.shutdown_attempted ∧
    (statusCheck cfg s now b e).2.start_attempted = e.start_attempted := by
  unfold statusCheck; split <;> exact ⟨rfl, rfl, rfl⟩

theorem statusCheck_fst_ignores_status (cfg : Config) (s : LoopState)
    (now : Dec) (b1 b2 : Bool) (e : TickEvents) :
    (statusCheck cfg s now b1 e).1 = (statusCheck cfg s now b2 e).1 := by
  unfold statusCheck; split <;> rfl

/-- Normal form of a successful tick: edge detection, last-state update,
power branch, status check. -/
theorem step_ok_eq (cfg : Config) (s : LoopState) (sample : Q1Sample)
    (now : Dec) (a b c d : Bool) :
    step cfg s (Tick.ok sample now a b c d) =
      (let s2 : LoopState :=
        { edgeUpdate s sample.on_battery with last_on_battery := some sample.on_battery }
       let r := if sample.on_battery then
          batteryBranch cfg s2 sample.battery_voltage a c
        else mainsBranch cfg s2 sample.battery_voltage now
       statusCheck cfg r.1 now d r.2) := rfl

theorem edgeUpdate_none (s : LoopState) (ob : Bool)
    (h : s.last_on_battery = none) : edgeUpdate s ob = s := by
  unfold edgeUpdate; rw [h]

theorem edgeUpdate_some (s : LoopState) (l ob : Bool)
    (h : s.last_on_battery = some l) :
    edgeUpdate s ob =
      (if l && !ob then { s with stable_mains_time := 0 }
       else if !l && ob then
        { s with array_stopped_this_outage := false,
                 nas_shutdown_this_outage := false,
                 stable_mains_time := 0 }
       else s) := by
  unfold edgeUpdate; rw [h]

theorem batteryBranch_fst_fields (cfg : Config) (s : LoopState) (v : Dec)
    (so sho : Bool) :
    (batteryBranch cfg s v so sho).1.last_on_battery = s.last_on_battery ∧
    (batteryBranch cfg s v so sho).1.stable_mains_time = 0 ∧
    (batteryBranch cfg s v so sho).1.last_status_check_ts = s.last_status_check_ts ∧
    (batteryBranch cfg s v so sho).1.last_start_attempt_ts = s.last_start_attempt_ts := by
  unfold batteryBranch
  dsimp only
  split <;> split <;> exact ⟨rfl, rfl, rfl, rfl⟩

theorem batteryBranch_stop_flag (cfg : Config) (s : LoopState) (v : Dec)
    (so sho : Bool) :
    (batteryBranch cfg s v so sho).1.array_stopped_this_outage =
      (s.array_stopped_this_outage ||
        ((!s.array_stopped_this_outage && decide (v ≤ cfg.low_batt_volt)) && so)) := by
  unfold batteryBranch
  dsimp only
  split <;> split <;> rename_i h1 h2 <;> simp_all

theorem batteryBranch_shutdown_flag (cfg : Config) (s : LoopState) (v : Dec)
    (so sho : Bool) :
    (batteryBranch cfg s v so sho).1.nas_shutdown_this_outage =
      (s.nas_shutdown_this_outage ||
        ((!s.nas_shutdown_this_outage && decide (v ≤ cfg.extra_low_batt_volt)) && sho)) := by
  unfold batteryBranch
  dsimp only
  split <;> split <;> rename_i h1 h2 <;> simp_all

theorem batteryBranch_events (cfg : Config) (s : LoopState) (v : Dec)
    (so sho : Bool) :
    (batteryBranch cfg s v so sho).2.stop_attempted =
      (!s.array_stopped_this_outage && decide (v ≤ cfg.low_batt_volt)) ∧
    (batteryBranch cfg s v so sho).2.shutdown_attempted =
      (!s.nas_shutdown_this_outage && decide (v ≤ cfg.extra_low_batt_volt)) ∧
    (batteryBranch cfg s v so sho).2.start_attempted = false := by
  unfold batteryBranch
  dsimp only
  split <;> exact ⟨rfl, rfl, rfl⟩

theorem mainsBranch_fst_fields (cfg : Config) (s : LoopState) (v now : Dec) :
    (mainsBranch cfg s v now).1.last_on_battery = s.last_on_battery ∧
    (mainsBranch cfg s v now).1.last_status_check_ts = s.last_status_check_ts ∧
    (mainsBranch cfg s v now).1.array_stopped_this_outage = s.array_stopped_this_outage ∧
    (mainsBranch cfg s v now).1.nas_shutdown_this_outage = s.nas_shutdown_this_outage := by
  unfold mainsBranch
  dsimp only
  split <;> split <;> exact ⟨rfl, rfl, rfl, rfl⟩

theorem mainsBranch_stable (cfg : Config) (s : LoopState) (v now : Dec) :
    (mainsBranch cfg s v now).1.stable_mains_time =
      (if cfg.enable_array_voltage ≤ v
        then s.stable_mains_time + cfg.ups_poll_interval else 0) := by
  unfold mainsBranch
  dsimp only
  split_ifs <;> rfl

theorem mainsBranch_events (cfg : Config) (s : LoopState) (v now : Dec) :
    (mainsBranch cfg s v now).2.start_attempted =
      (decide (cfg.power_stable_time ≤ (mainsBranch cfg s v now).1.stable_mains_time) &&
        decide (MIN_START_RETRY_INTERVAL ≤ now - s.last_start_attempt_ts)) ∧
    (mainsBranch cfg s v now).2.stop_attempted = false ∧
    (mainsBranch cfg s v now).2.shutdown_attempted = false := by
  rw [mainsBranch_stable]
  unfold mainsBranch
  dsimp only
  split_ifs <;> exact ⟨rfl, rfl, rfl⟩

theorem mainsBranch_last_start (cfg : Config) (s : LoopState) (v now : Dec) :
    (mainsBranch cfg s v now).1.last_start_attempt_ts =
      (if (mainsBranch cfg s v now).2.start_attempted = true
        then now else s.last_start_attempt_ts) := by
  unfold mainsBranch
  dsimp only
  split <;> split <;> rename_i h1 h2 <;> simp_all

end NasMonitor

theorem Dec.zero_add (x : Dec) : (0 : Dec) + x = x := by
  show Dec.add ⟨(0 : ℤ), 0⟩ x = x
  unfold Dec.add
  ext <;> simp [pow10]

theorem Dec.not_le_of_lt {a b : Dec} (h : a < b) : ¬ b ≤ a := by
  have h' : a.mant * pow10 b.exp < b.mant * pow10 a.exp := h
  show ¬ (b.mant * pow10 a.exp ≤ a.mant * pow10 b.exp)
  exact not_le.mpr h'

namespace NasMonitor

/-- On-battery ticks take the battery branch. -/
theorem step_ok_true (cfg : Config) (s : LoopState) (sample : Q1Sample)
    (now : Dec) (a b c d : Bool) (hob : sample.on_battery = true) :
    step cfg s (Tick.ok sample now a b c d) =
      statusCheck cfg
        (batteryBranch cfg { edgeUpdate s true with last_on_battery := some true }
          sample.battery_voltage a c).1 now d
        (batteryBranch cfg { edgeUpdate s true with last_on_battery := some true }
          sample.battery_voltage a c).2 := by
  rw [step_ok_eq]
  dsimp only
  rw [hob]
  simp

/-- On-mains ticks take the mains branch. -/
theorem step_ok_false (cfg : Config) (s : LoopState) (sample : Q1Sample)
    (now : Dec) (a b c d : Bool) (hob : sample.on_battery = false) :
    step cfg s (Tick.ok sample now a b c d) =
      statusCheck cfg
        (mainsBranch cfg { edgeUpdate s false with last_on_battery := some false }
          sample.battery_voltage now).1 now d
        (mainsBranch cfg { edgeUpdate s false with last_on_battery := some false }
          sample.battery_voltage now).2 := by
  rw [step_ok_eq]
  dsimp only
  rw [hob]
  simp

-- Shared concrete scenario configuration: poll interval 2 s, status check
-- interval 10 s, power stable time 10 s, low battery 24.7 V, extra low
-- 22.5 V, enable voltage 23.0 V.
def scenarioCfg : Config :=
  { ups_poll_interval := ⟨2, 0⟩, status_check_interval := ⟨10, 0⟩,
    power_stable_time := ⟨10, 0⟩, low_batt_volt := ⟨247, 1⟩,
    extra_low_batt_volt := ⟨225, 1⟩, enable_array_voltage := ⟨230, 1⟩ }

/-- First fifty of one hundred qualifying mains ticks at 23.5 V, two
seconds apart. -/
def c4TicksA : List Tick :=
  (List.range 50).map fun k =>
    Tick.ok (mkSample false ⟨235, 1⟩) ⟨1000 + 2 * (k : ℤ), 0⟩ true true true false

/-- Second fifty qualifying mains ticks, continuing two seconds apart. -/
def c4TicksB : List Tick :=
  (List.range 50).map fun k =>
    Tick.ok (mkSample false ⟨235, 1⟩) ⟨1100 + 2 * (k : ℤ), 0⟩ true true true false

/-- One hundred qualifying mains ticks at 23.5 V, two seconds apart. -/
def c4QualTicks : List Tick := c4TicksA ++ c4TicksB

/-- A single violating mains tick at 22.0 V, below the enable threshold. -/
def c4ViolTick : Tick :=
  Tick.ok (mkSample false ⟨220, 1⟩) ⟨1200, 0⟩ true true true false

/-- The hundred qualifying ticks followed by the single violating tick. -/
def c4AllTicks : List Tick := c4QualTicks ++ [c4ViolTick]

/-- Loop state reached from process start after the first fifty qualifying
ticks (checked by kernel evaluation below). -/
def c4MidState : LoopState :=
  { last_on_battery := some false, stable_mains_time := ⟨100, 0⟩,
    last_status_check_ts := ⟨1090, 0⟩, last_start_attempt_ts := ⟨1068, 0⟩,
    array_stopped_this_outage := false, nas_shutdown_this_outage := false }

/-- Loop state reached after all hundred qualifying ticks. -/
def c4EndState : LoopState :=
  { last_on_battery := some false, stable_mains_time := ⟨200, 0⟩,
    last_status_check_ts := ⟨1190, 0⟩, last_start_attempt_ts := ⟨1188, 0⟩,
    array_stopped_this_outage := false, nas_shutdown_this_outage := false }

/-- Running the loop over an appended tick list is running it over the two
parts in sequence. -/
theorem runLoop_fst_append (cfg : Config) (s : LoopState) (xs ys : List Tick) :
    (runLoop cfg s (xs ++ ys)).1 = (runLoop cfg (runLoop cfg s xs).1 ys).1 := by
  induction xs generalizing s with
  | nil => rfl
  | cons t ts ih => simp [runLoop, ih]

end NasMonitor

/-- C9: on any tick where acquiring the UPS device or reading or decoding a
sample fails, the loop leaves the whole modelled state (last_on_battery,
stable_mains_time, the episode flags, the start attempt and status check
timestamps) unchanged, performs no remote call, and continues with the
next tick. -/
theorem c9_sensor_failure_preserves_state :
    (∀ (cfg : NasMonitor.Config) (s : NasMonitor.LoopState),
      NasMonitor.step cfg s NasMonitor.Tick.fail = (s, {})) ∧
    (∀ (cfg : NasMonitor.Config) (s : NasMonitor.LoopState) (ts : List NasMonitor.Tick),
      (NasMonitor.runLoop cfg s (NasMonitor.Tick.fail :: ts)).1 =
        (NasMonitor.runLoop cfg s ts).1 ∧
      (NasMonitor.runLoop cfg s (NasMonitor.Tick.fail :: ts)).2 =
        ({} : NasMonitor.TickEvents) :: (NasMonitor.runLoop cfg s ts).2) :=
  ⟨fun _ _ => rfl, fun _ _ _ => ⟨rfl, rfl⟩⟩

set_option maxRecDepth 6000 in
/-- C4: the stability timer accrues one poll interval on every successful
mains tick with battery voltage at or above the enable threshold; it ends
the tick at exactly zero on any tick violating either condition (on
battery, or voltage below the threshold, even after one hundred prior
qualifying ticks); and the tick at which mains is restored first discards
any previous accrual, so its resulting value is its own accrual alone,
independent of the prior timer value. -/
theorem c4_stability_timer :
    (∀ (cfg : NasMonitor.Config) (s : NasMonitor.LoopState) (sample : Q1Sample)
        (now : Dec) (a b c d : Bool), sample.on_battery = true →
      (NasMonitor.step cfg s (NasMonitor.Tick.ok sample now a b c d)).1.stable_mains_time = 0) ∧
    (∀ (cfg : NasMonitor.Config) (s : NasMonitor.LoopState) (sample : Q1Sample)
        (now : Dec) (a b c d : Bool), sample.on_battery = false →
      sample.battery_voltage < cfg.enable_array_voltage →
      (NasMonitor.step cfg s (NasMonitor.Tick.ok sample now a b c d)).1.stable_mains_time = 0) ∧
    (∀ (cfg : NasMonitor.Config) (s : NasMonitor.LoopState) (sample : Q1Sample)
        (now : Dec) (a b c d : Bool),
      s.last_on_battery = some true → sample.on_battery = false →
      (NasMonitor.step cfg s (NasMonitor.Tick.ok sample now a b c d)).1.stable_mains_time =
        (if cfg.enable_array_voltage ≤ sample.battery_voltage
          then cfg.ups_poll_interval else 0)) ∧
    (∀ (cfg : NasMonitor.Config) (s : NasMonitor.LoopState) (sample : Q1Sample)
        (now : Dec) (a b c d : Bool),
      s.last_on_battery = some false → sample.on_battery = false →
      cfg.enable_array_voltage ≤ sample.battery_voltage →
      (NasMonitor.step cfg s (NasMonitor.Tick.ok sample now a b c d)).1.stable_mains_time =
        s.stable_mains_time + cfg.ups_poll_interval) ∧
    ((NasMonitor.runLoop NasMonitor.scenarioCfg (NasMonitor.initState ⟨1000, 0⟩)
        NasMonitor.c4QualTicks).1.stable_mains_time = ⟨200, 0⟩ ∧
      (NasMonitor.runLoop NasMonitor.scenarioCfg (NasMonitor.initState ⟨1000, 0⟩)
        NasMonitor.c4AllTicks).1.stable_mains_time = 0) := by
  have hA : (NasMonitor.runLoop NasMonitor.scenarioCfg
      (NasMonitor.initState ⟨1000, 0⟩) NasMonitor.c4TicksA).1 = NasMonitor.c4MidState := by
    decide
  have hB : (NasMonitor.runLoop NasMonitor.scenarioCfg
      NasMonitor.c4MidState NasMonitor.c4TicksB).1 = NasMonitor.c4EndState := by
    decide
  have hQual : (NasMonitor.runLoop NasMonitor.scenarioCfg
      (NasMonitor.initState ⟨1000, 0⟩) NasMonitor.c4QualTicks).1 = NasMonitor.c4EndState := by
    show (NasMonitor.runLoop NasMonitor.scenarioCfg (NasMonitor.initState ⟨1000, 0⟩)
      (NasMonitor.c4TicksA ++ NasMonitor.c4TicksB)).1 = NasMonitor.c4EndState
    rw [NasMonitor.runLoop_fst_append, hA, hB]
  refine ⟨fun cfg s sample now a b c d hob => ?_,
    fun cfg s sample now a b c d hob hv => ?_,
    fun cfg s sample now a b c d hlast hob => ?_,
    fun cfg s sample now a b c d hlast hob hv => ?_,
    by rw [hQual]; rfl, ?_⟩
  pick_goal 5
  · show (NasMonitor.runLoop NasMonitor.scenarioCfg (NasMonitor.initState ⟨1000, 0⟩)
      (NasMonitor.c4QualTicks ++ [NasMonitor.c4ViolTick])).1.stable_mains_time = 0
    rw [NasMonitor.runLoop_fst_append, hQual]
    decide
  · rw [NasMonitor.step_ok_true cfg s sample now a b c d hob,
      (NasMonitor.statusCheck_fst_fields _ _ _ _ _).2.1]
    exact (NasMonitor.batteryBranch_fst_fields _ _ _ _ _).2.1
  · rw [NasMonitor.step_ok_false cfg s sample now a b c d hob,
      (NasMonitor.statusCheck_fst_fields _ _ _ _ _).2.1,
      NasMonitor.mainsBranch_stable]
    exact if_neg (Dec.not_le_of_lt hv)
  · have hedge : NasMonitor.edgeUpdate s false = { s with stable_mains_time := 0 } := by
      rw [NasMonitor.edgeUpdate_some s true false hlast]; simp
    rw [NasMonitor.step_ok_false cfg s sample now a b c d hob,
      (NasMonitor.statusCheck_fst_fields _ _ _ _ _).2.1,
      NasMonitor.mainsBranch_stable, hedge]
    by_cases hv : cfg.enable_array_voltage ≤ sample.battery_voltage
    · rw [if_pos hv, if_pos hv]
      exact Dec.zero_add _
    · rw [if_neg hv, if_neg hv]
  · have hedge : NasMonitor.edgeUpdate s false = s := by
      rw [NasMonitor.edgeUpdate_some s false false hlast]; simp
    rw [NasMonitor.step_ok_false cfg s sample now a b c d hob,
      (NasMonitor.statusCheck_fst_fields _ _ _ _ _).2.1,
      NasMonitor.mainsBranch_stable, hedge, if_pos hv]

/-- Witness instantiating the universal parts of C4 at concrete states: an
on-battery tick zeroes the timer, a low-voltage mains tick zeroes it after
prior accrual, the restoral tick yields exactly one poll interval
independent of prior accrual, and a continuing qualifying mains tick adds
one poll interval. -/
theorem c4_stability_timer_witness :
    (NasMonitor.step NasMonitor.scenarioCfg
      { last_on_battery := some false, stable_mains_time := ⟨200, 0⟩,
        last_status_check_ts := ⟨1000, 0⟩, last_start_attempt_ts := 0,
        array_stopped_this_outage := false, nas_shutdown_this_outage := false }
      (NasMonitor.Tick.ok (NasMonitor.mkSample true ⟨240, 1⟩) ⟨1200, 0⟩ true true true false)).1.stable_mains_time = 0 ∧
    (NasMonitor.step NasMonitor.scenarioCfg
      { last_on_battery := some false, stable_mains_time := ⟨200, 0⟩,
        last_status_check_ts := ⟨1000, 0⟩, last_start_attempt_ts := 0,
        array_stopped_this_outage := false, nas_shutdown_this_outage := false }
      (NasMonitor.Tick.ok (NasMonitor.mkSample false ⟨220, 1⟩) ⟨1200, 0⟩ true true true false)).1.stable_mains_time = 0 ∧
    (NasMonitor.step NasMonitor.scenarioCfg
      { last_on_battery := some true, stable_mains_time := ⟨999, 0⟩,
        last_status_check_ts := ⟨1000, 0⟩, last_start_attempt_ts := 0,
        array_stopped_this_outage := false, nas_shutdown_this_outage := false }
      (NasMonitor.Tick.ok (NasMonitor.mkSample false ⟨235, 1⟩) ⟨1200, 0⟩ true true true false)).1.stable_mains_time =
      (if NasMonitor.scenarioCfg.enable_array_voltage ≤ (⟨235, 1⟩ : Dec)
        then NasMonitor.scenarioCfg.ups_poll_interval else 0) ∧
    (NasMonitor.step NasMonitor.scenarioCfg
      { last_on_battery := some false, stable_mains_time := ⟨8, 0⟩,
        last_status_check_ts := ⟨1000, 0⟩, last_start_attempt_ts := 0,
        array_stopped_this_outage := false, nas_shutdown_this_outage := false }
      (NasMonitor.Tick.ok (NasMonitor.mkSample false ⟨235, 1⟩) ⟨1200, 0⟩ true true true false)).1.stable_mains_time =
      (⟨8, 0⟩ : Dec) + NasMonitor.scenarioCfg.ups_poll_interval :=
  ⟨c4_stability_timer.1 _ _ _ _ _ _ _ _ (by decide),
   c4_stability_timer.2.1 _ _ _ _ _ _ _ _ (by decide) (by decide),
   c4_stability_timer.2.2.1 _ _ _ _ _ _ _ _ (by decide) (by decide),
   c4_stability_timer.2.2.2.1 _ _ _ _ _ _ _ _ (by decide) (by decide) (by decide)⟩

namespace NasMonitor

theorem edgeUpdate_fields (s : LoopState) (ob : Bool) :
    (edgeUpdate s ob).last_start_attempt_ts = s.last_start_attempt_ts ∧
    (edgeUpdate s ob).last_status_check_ts = s.last_status_check_ts ∧
    (edgeUpdate s ob).last_on_battery = s.last_on_battery := by
  unfold edgeUpdate
  split
  · exact ⟨rfl, rfl, rfl⟩
  · split
    · exact ⟨rfl, rfl, rfl⟩
    · split <;> exact ⟨rfl, rfl, rfl⟩

/-- Scenario B tick list: thirty-four mains ticks at 23.5 V, two seconds
apart, with every start call failing and array status remaining not
started. -/
def c5Ticks : List Tick :=
  (List.range 34).map fun k =>
    Tick.ok (mkSample false ⟨235, 1⟩) ⟨1000 + 2 * (k : ℤ), 0⟩ true false true false

/-- Loop state of scenario B just before its fifth sample: four poll
intervals accrued, no start attempted yet. -/
def c5State : LoopState :=
  { last_on_battery := some false, stable_mains_time := ⟨8, 0⟩,
    last_status_check_ts := ⟨1000, 0⟩, last_start_attempt_ts := 0,
    array_stopped_this_outage := false, nas_shutdown_this_outage := false }

end NasMonitor

set_option maxRecDepth 6000 in
/-- C5: on every successful mains tick, an array-start attempt is issued
exactly when the post-accrual stability time has reached power_stable_time
and the fixed sixty-second retry floor has elapsed since the last attempt;
the result of the start call does not influence the next state, and the
attempt timestamp is set to the tick time whenever an attempt is made,
regardless of outcome; on-battery ticks never attempt a start; and in
scenario B (stable time 10 s, poll 2 s) five qualifying samples yield
exactly one attempt, on the fifth sample, with no further attempt within
the following 58 seconds even though every call fails and status stays
not started. -/
theorem c5_start_attempt_gating :
    (∀ (cfg : NasMonitor.Config) (s : NasMonitor.LoopState) (sample : Q1Sample)
        (now : Dec) (a b c d : Bool), sample.on_battery = false →
      ((NasMonitor.step cfg s (NasMonitor.Tick.ok sample now a b c d)).2.start_attempted = true ↔
        (cfg.power_stable_time ≤
            (NasMonitor.step cfg s (NasMonitor.Tick.ok sample now a b c d)).1.stable_mains_time ∧
          NasMonitor.MIN_START_RETRY_INTERVAL ≤ now - s.last_start_attempt_ts))) ∧
    (∀ (cfg : NasMonitor.Config) (s : NasMonitor.LoopState) (sample : Q1Sample)
        (now : Dec) (a b1 b2 c d : Bool),
      NasMonitor.step cfg s (NasMonitor.Tick.ok sample now a b1 c d) =
        NasMonitor.step cfg s (NasMonitor.Tick.ok sample now a b2 c d)) ∧
    (∀ (cfg : NasMonitor.Config) (s : NasMonitor.LoopState) (sample : Q1Sample)
        (now : Dec) (a b c d : Bool),
      (NasMonitor.step cfg s (NasMonitor.Tick.ok sample now a b c d)).2.start_attempted = true →
      (NasMonitor.step cfg s (NasMonitor.Tick.ok sample now a b c d)).1.last_start_attempt_ts = now) ∧
    (∀ (cfg : NasMonitor.Config) (s : NasMonitor.LoopState) (sample : Q1Sample)
        (now : Dec) (a b c d : Bool), sample.on_battery = true →
      (NasMonitor.step cfg s (NasMonitor.Tick.ok sample now a b c d)).2.start_attempted = false) ∧
    (NasMonitor.countStarts (NasMonitor.runLoop NasMonitor.scenarioCfg
        (NasMonitor.initState ⟨1000, 0⟩) NasMonitor.c5Ticks).2 = 1 ∧
      NasMonitor.countStarts (NasMonitor.runLoop NasMonitor.scenarioCfg
        (NasMonitor.initState ⟨1000, 0⟩) (NasMonitor.c5Ticks.take 4)).2 = 0 ∧
      ((NasMonitor.runLoop NasMonitor.scenarioCfg
        (NasMonitor.initState ⟨1000, 0⟩) NasMonitor.c5Ticks).2.getD 4 {}).start_attempted = true) := by
  refine ⟨fun cfg s sample now a b c d hob => ?_,
    fun cfg s sample now a b1 b2 c d => rfl,
    fun cfg s sample now a b c d h => ?_,
    fun cfg s sample now a b c d hob => ?_,
    by decide, by decide, by decide⟩
  · rw [NasMonitor.step_ok_false cfg s sample now a b c d hob,
      (NasMonitor.statusCheck_snd_fields _ _ _ _ _).2.2,
      (NasMonitor.statusCheck_fst_fields _ _ _ _ _).2.1,
      (NasMonitor.mainsBranch_events _ _ _ _).1]
    dsimp only
    rw [(NasMonitor.edgeUpdate_fields s false).1]
    simp only [Bool.and_eq_true, decide_eq_true_eq]
  · rcases hob : sample.on_battery with _ | _
    · rw [NasMonitor.step_ok_false cfg s sample now a b c d hob] at h ⊢
      rw [(NasMonitor.statusCheck_snd_fields _ _ _ _ _).2.2] at h
      rw [(NasMonitor.statusCheck_fst_fields _ _ _ _ _).2.2.1,
        NasMonitor.mainsBranch_last_start, if_pos h]
    · rw [NasMonitor.step_ok_true cfg s sample now a b c d hob] at h
      rw [(NasMonitor.statusCheck_snd_fields _ _ _ _ _).2.2,
        (NasMonitor.batteryBranch_events _ _ _ _ _).2.2] at h
      exact absurd h (by simp)
  · rw [NasMonitor.step_ok_true cfg s sample now a b c d hob,
      (NasMonitor.statusCheck_snd_fields _ _ _ _ _).2.2,
      (NasMonitor.batteryBranch_events _ _ _ _ _).2.2]

/-- Witness instantiating C5 at scenario B concretes: the gating
equivalence at the fifth sample, the timestamp recording on that attempt,
and the absence of start attempts on an on-battery tick. -/
theorem c5_start_attempt_gating_witness :
    ((NasMonitor.step NasMonitor.scenarioCfg NasMonitor.c5State
        (NasMonitor.Tick.ok (NasMonitor.mkSample false ⟨235, 1⟩) ⟨1008, 0⟩ true false true false)).2.start_attempted = true ↔
      (NasMonitor.scenarioCfg.power_stable_time ≤
          (NasMonitor.step NasMonitor.scenarioCfg NasMonitor.c5State
            (NasMonitor.Tick.ok (NasMonitor.mkSample false ⟨235, 1⟩) ⟨1008, 0⟩ true false true false)).1.stable_mains_time ∧
        NasMonitor.MIN_START_RETRY_INTERVAL ≤
          (⟨1008, 0⟩ : Dec) - NasMonitor.c5State.last_start_attempt_ts)) ∧
    (NasMonitor.step NasMonitor.scenarioCfg NasMonitor.c5State
        (NasMonitor.Tick.ok (NasMonitor.mkSample false ⟨235, 1⟩) ⟨1008, 0⟩ true false true false)).1.last_start_attempt_ts = ⟨1008, 0⟩ ∧
    (NasMonitor.step NasMonitor.scenarioCfg NasMonitor.c5State
        (NasMonitor.Tick.ok (NasMonitor.mkSample true ⟨240, 1⟩) ⟨1008, 0⟩ true true true false)).2.start_attempted = false :=
  ⟨c5_start_attempt_gating.1 _ _ _ _ _ _ _ _ (by decide),
   c5_start_attempt_gating.2.2.1 _ _ _ _ _ _ _ _ (by decide),
   c5_start_attempt_gating.2.2.2.1 _ _ _ _ _ _ _ _ (by decide)⟩

namespace NasMonitor

theorem runLoop_cons (cfg : Config) (s : LoopState) (t : Tick) (ts : List Tick) :
    runLoop cfg s (t :: ts) =
      ((runLoop cfg (step cfg s t).1 ts).1,
        (step cfg s t).2 :: (runLoop cfg (step cfg s t).1 ts).2) := rfl

theorem countStops_cons (e : TickEvents) (es : List TickEvents) :
    countStops (e :: es) = countStops es + (if e.stop_attempted then 1 else 0) := by
  simp [countStops, List.countP_cons]

theorem countShutdowns_cons (e : TickEvents) (es : List TickEvents) :
    countShutdowns (e :: es) = countShutdowns es + (if e.shutdown_attempted then 1 else 0) := by
  simp [countShutdowns, List.countP_cons]

/-- While already on battery, an on-battery tick takes no edge branch. -/
theorem edgeUpdate_onBatt_id (s : LoopState) (h : s.last_on_battery = some true) :
    edgeUpdate s true = s := by
  rw [edgeUpdate_some s true true h]; simp

theorem edgeUpdate_stop_flag_false (s : LoopState) (ob : Bool)
    (h : s.array_stopped_this_outage = false) :
    (edgeUpdate s ob).array_stopped_this_outage = false := by
  unfold edgeUpdate
  split
  · exact h
  · split
    · exact h
    · split
      · rfl
      · exact h

theorem edgeUpdate_shutdown_flag_false (s : LoopState) (ob : Bool)
    (h : s.nas_shutdown_this_outage = false) :
    (edgeUpdate s ob).nas_shutdown_this_outage = false := by
  unfold edgeUpdate
  split
  · exact h
  · split
    · exact h
    · split
      · rfl
      · exact h

/-- Once the stop flag is set, a continuing on-battery tick attempts no
stop and keeps the flag and the episode. -/
theorem step_onBatt_stopped (cfg : Config) (s : LoopState) (sample : Q1Sample)
    (now : Dec) (a b c d : Bool) (hob : sample.on_battery = true)
    (h1 : s.array_stopped_this_outage = true) (h2 : s.last_on_battery = some true) :
    (step cfg s (Tick.ok sample now a b c d)).2.stop_attempted = false ∧
    (step cfg s (Tick.ok sample now a b c d)).1.array_stopped_this_outage = true ∧
    (step cfg s (Tick.ok sample now a b c d)).1.last_on_battery = some true := by
  rw [step_ok_true cfg s sample now a b c d hob, edgeUpdate_onBatt_id s h2]
  refine ⟨?_, ?_, ?_⟩
  · rw [(statusCheck_snd_fields _ _ _ _ _).1, (batteryBranch_events _ _ _ _ _).1]
    dsimp only
    rw [h1]
    rfl
  · rw [(statusCheck_fst_fields _ _ _ _ _).2.2.2.1, batteryBranch_stop_flag]
    dsimp only
    rw [h1]
    rfl
  · rw [(statusCheck_fst_fields _ _ _ _ _).1, (batteryBranch_fst_fields _ _ _ _ _).1]

/-- Once the shutdown flag is set, a continuing on-battery tick attempts no
shutdown and keeps the flag and the episode. -/
theorem step_onBatt_shutdown_done (cfg : Config) (s : LoopState) (sample : Q1Sample)
    (now : Dec) (a b c d : Bool) (hob : sample.on_battery = true)
    (h1 : s.nas_shutdown_this_outage = true) (h2 : s.last_on_battery = some true) :
    (step cfg s (Tick.ok sample now a b c d)).2.shutdown_attempted = false ∧
    (step cfg s (Tick.ok sample now a b c d)).1.nas_shutdown_this_outage = true ∧
    (step cfg s (Tick.ok sample now a b c d)).1.last_on_battery = some true := by
  rw [step_ok_true cfg s sample now a b c d hob, edgeUpdate_onBatt_id s h2]
  refine ⟨?_, ?_, ?_⟩
  · rw [(statusCheck_snd_fields _ _ _ _ _).2.1, (batteryBranch_events _ _ _ _ _).2.1]
    dsimp only
    rw [h1]
    rfl
  · rw [(statusCheck_fst_fields _ _ _ _ _).2.2.2.2, batteryBranch_shutdown_flag]
    dsimp only
    rw [h1]
    rfl
  · rw [(statusCheck_fst_fields _ _ _ _ _).1, (batteryBranch_fst_fields _ _ _ _ _).1]

/-- A failed tick attempts nothing and changes nothing. -/
theorem step_fail_eq (cfg : Config) (s : LoopState) :
    step cfg s Tick.fail = (s, {}) := rfl

/-- After the stop flag is set within an episode, no further tick of the
episode invokes array stop. -/
theorem noStops_after_flag (cfg : Config) :
    ∀ (ts : List Tick) (s : LoopState), s.array_stopped_this_outage = true →
      s.last_on_battery = some true → (∀ t ∈ ts, tickInEpisode t = true) →
      countStops (runLoop cfg s ts).2 = 0 := by
  intro ts
  induction ts with
  | nil => intro s _ _ _; rfl
  | cons t ts ih =>
    intro s h1 h2 h3
    have hrest := fun t' ht' => h3 t' (List.mem_cons_of_mem _ ht')
    have hcur := h3 t (List.mem_cons_self _ _)
    cases t with
    | fail =>
      rw [runLoop_cons]
      dsimp only
      rw [step_fail_eq]
      rw [countStops_cons]
      simp [ih s h1 h2 hrest]
    | ok sample now a b c d =>
      have hob : sample.on_battery = true := hcur
      obtain ⟨he, hf, hl⟩ := step_onBatt_stopped cfg s sample now a b c d hob h1 h2
      rw [runLoop_cons]
      dsimp only
      rw [countStops_cons, he]
      simp [ih _ hf hl hrest]

/-- After the shutdown flag is set within an episode, no further tick of
the episode invokes shutdown. -/
theorem noShutdowns_after_flag (cfg : Config) :
    ∀ (ts : List Tick) (s : LoopState), s.nas_shutdown_this_outage = true →
      s.last_on_battery = some true → (∀ t ∈ ts, tickInEpisode t = true) →
      countShutdowns (runLoop cfg s ts).2 = 0 := by
  intro ts
  induction ts with
  | nil => intro s _ _ _; rfl
  | cons t ts ih =>
    intro s h1 h2 h3
    have hrest := fun t' ht' => h3 t' (List.mem_cons_of_mem _ ht')
    have hcur := h3 t (List.mem_cons_self _ _)
    cases t with
    | fail =>
      rw [runLoop_cons]
      dsimp only
      rw [step_fail_eq]
      rw [countShutdowns_cons]
      simp [ih s h1 h2 hrest]
    | ok sample now a b c d =>
      have hob : sample.on_battery = true := hcur
      obtain ⟨he, hf, hl⟩ := step_onBatt_shutdown_done cfg s sample now a b c d hob h1 h2
      rw [runLoop_cons]
      dsimp only
      rw [countShutdowns_cons, he]
      simp [ih _ hf hl hrest]

/-- Ten consecutive on-battery samples at 24.0 V, below the 24.7 V stop
threshold, with every remote call succeeding. -/
def c2Ticks : List Tick :=
  (List.range 10).map fun k =>
    Tick.ok (mkSample true ⟨240, 1⟩) ⟨1000 + 2 * (k : ℤ), 0⟩ true true true false

end NasMonitor

/-- C2: within one on-battery episode, once an array-stop invocation
succeeds no further array-stop is invoked for the remainder of the
episode, and likewise for shutdown; in particular, with voltage at or
below the low threshold for ten consecutive ticks and the first stop call
succeeding, array-stop is invoked exactly once. -/
theorem c2_episode_idempotency :
    (∀ (cfg : NasMonitor.Config) (s : NasMonitor.LoopState) (sample : Q1Sample)
        (now : Dec) (b c d : Bool) (ts : List NasMonitor.Tick),
      sample.on_battery = true →
      (NasMonitor.step cfg s (NasMonitor.Tick.ok sample now true b c d)).2.stop_attempted = true →
      (∀ t ∈ ts, NasMonitor.tickInEpisode t = true) →
      NasMonitor.countStops (NasMonitor.runLoop cfg
        (NasMonitor.step cfg s (NasMonitor.Tick.ok sample now true b c d)).1 ts).2 = 0) ∧
    (∀ (cfg : NasMonitor.Config) (s : NasMonitor.LoopState) (sample : Q1Sample)
        (now : Dec) (a b d : Bool) (ts : List NasMonitor.Tick),
      sample.on_battery = true →
      (NasMonitor.step cfg s (NasMonitor.Tick.ok sample now a b true d)).2.shutdown_attempted = true →
      (∀ t ∈ ts, NasMonitor.tickInEpisode t = true) →
      NasMonitor.countShutdowns (NasMonitor.runLoop cfg
        (NasMonitor.step cfg s (NasMonitor.Tick.ok sample now a b true d)).1 ts).2 = 0) ∧
    NasMonitor.countStops (NasMonitor.runLoop NasMonitor.scenarioCfg
      (NasMonitor.initState ⟨1000, 0⟩) NasMonitor.c2Ticks).2 = 1 := by
  refine ⟨fun cfg s sample now b c d ts hob h hts => ?_,
    fun cfg s sample now a b d ts hob h hts => ?_, by decide⟩
  · have harr : (NasMonitor.step cfg s
        (NasMonitor.Tick.ok sample now true b c d)).1.array_stopped_this_outage = true := by
      rw [NasMonitor.step_ok_true cfg s sample now true b c d hob,
        (NasMonitor.statusCheck_snd_fields _ _ _ _ _).1,
        (NasMonitor.batteryBranch_events _ _ _ _ _).1] at h
      rw [NasMonitor.step_ok_true cfg s sample now true b c d hob,
        (NasMonitor.statusCheck_fst_fields _ _ _ _ _).2.2.2.1,
        NasMonitor.batteryBranch_stop_flag, h]
      simp
    have hl : (NasMonitor.step cfg s
        (NasMonitor.Tick.ok sample now true b c d)).1.last_on_battery = some true := by
      rw [NasMonitor.step_ok_true cfg s sample now true b c d hob,
        (NasMonitor.statusCheck_fst_fields _ _ _ _ _).1,
        (NasMonitor.batteryBranch_fst_fields _ _ _ _ _).1]
    exact NasMonitor.noStops_after_flag cfg ts _ harr hl hts
  · have hnas : (NasMonitor.step cfg s
        (NasMonitor.Tick.ok sample now a b true d)).1.nas_shutdown_this_outage = true := by
      rw [NasMonitor.step_ok_true cfg s sample now a b true d hob,
        (NasMonitor.statusCheck_snd_fields _ _ _ _ _).2.1,
        (NasMonitor.batteryBranch_events _ _ _ _ _).2.1] at h
      rw [NasMonitor.step_ok_true cfg s sample now a b true d hob,
        (NasMonitor.statusCheck_fst_fields _ _ _ _ _).2.2.2.2,
        NasMonitor.batteryBranch_shutdown_flag, h]
      simp
    have hl : (NasMonitor.step cfg s
        (NasMonitor.Tick.ok sample now a b true d)).1.last_on_battery = some true := by
      rw [NasMonitor.step_ok_true cfg s sample now a b true d hob,
        (NasMonitor.statusCheck_fst_fields _ _ _ _ _).1,
        (NasMonitor.batteryBranch_fst_fields _ _ _ _ _).1]
    exact NasMonitor.noShutdowns_after_flag cfg ts _ hnas hl hts

/-- Witness instantiating C2: a successful stop at 24.0 V on battery is
followed by a tick still below threshold with no further stop, and the
same for shutdown at 22.0 V. -/
theorem c2_episode_idempotency_witness :
    NasMonitor.countStops (NasMonitor.runLoop NasMonitor.scenarioCfg
      (NasMonitor.step NasMonitor.scenarioCfg (NasMonitor.initState ⟨1000, 0⟩)
        (NasMonitor.Tick.ok (NasMonitor.mkSample true ⟨240, 1⟩) ⟨1000, 0⟩ true true true false)).1
      [NasMonitor.Tick.ok (NasMonitor.mkSample true ⟨238, 1⟩) ⟨1002, 0⟩ true true true false]).2 = 0 ∧
    NasMonitor.countShutdowns (NasMonitor.runLoop NasMonitor.scenarioCfg
      (NasMonitor.step NasMonitor.scenarioCfg (NasMonitor.initState ⟨1000, 0⟩)
        (NasMonitor.Tick.ok (NasMonitor.mkSample true ⟨220, 1⟩) ⟨1000, 0⟩ true true true false)).1
      [NasMonitor.Tick.ok (NasMonitor.mkSample true ⟨219, 1⟩) ⟨1002, 0⟩ true true true false]).2 = 0 :=
  ⟨c2_episode_idempotency.1 _ _ _ _ _ _ _ _ (by decide) (by decide) (by decide),
   c2_episode_idempotency.2.1 _ _ _ _ _ _ _ _ (by decide) (by decide) (by decide)⟩

namespace NasMonitor

/-- Tick that neither ends an on-battery episode nor satisfies the stop
threshold: a failed read, or an on-battery sample above low_batt_volt. -/
def tickNoStopCondition (cfg : Config) : Tick → Bool
  | Tick.fail => true
  | Tick.ok sample _ _ _ _ _ =>
    sample.on_battery && !(decide (sample.battery_voltage ≤ cfg.low_batt_volt))

/-- Tick that neither ends an on-battery episode nor satisfies the
shutdown threshold. -/
def tickNoShutdownCondition (cfg : Config) : Tick → Bool
  | Tick.fail => true
  | Tick.ok sample _ _ _ _ _ =>
    sample.on_battery && !(decide (sample.battery_voltage ≤ cfg.extra_low_batt_volt))

/-- An on-battery tick above the stop threshold leaves an unset stop flag
unset and continues the episode. -/
theorem step_onBatt_above_stop (cfg : Config) (s : LoopState) (sample : Q1Sample)
    (now : Dec) (a b c d : Bool) (hob : sample.on_battery = true)
    (h2 : s.last_on_battery = some true)
    (hf : s.array_stopped_this_outage = false)
    (hv : ¬ sample.battery_voltage ≤ cfg.low_batt_volt) :
    (step cfg s (Tick.ok sample now a b c d)).1.array_stopped_this_outage = false ∧
    (step cfg s (Tick.ok sample now a b c d)).1.last_on_battery = some true := by
  rw [step_ok_true cfg s sample now a b c d hob, edgeUpdate_onBatt_id s h2]
  constructor
  · rw [(statusCheck_fst_fields _ _ _ _ _).2.2.2.1, batteryBranch_stop_flag]
    dsimp only
    rw [hf]
    simp [hv]
  · rw [(statusCheck_fst_fields _ _ _ _ _).1, (batteryBranch_fst_fields _ _ _ _ _).1]

/-- An on-battery tick above the shutdown threshold leaves an unset
shutdown flag unset and continues the episode. -/
theorem step_onBatt_above_shutdown (cfg : Config) (s : LoopState) (sample : Q1Sample)
    (now : Dec) (a b c d : Bool) (hob : sample.on_battery = true)
    (h2 : s.last_on_battery = some true)
    (hf : s.nas_shutdown_this_outage = false)
    (hv : ¬ sample.battery_voltage ≤ cfg.extra_low_batt_volt) :
    (step cfg s (Tick.ok sample now a b c d)).1.nas_shutdown_this_outage = false ∧
    (step cfg s (Tick.ok sample now a b c d)).1.last_on_battery = some true := by
  rw [step_ok_true cfg s sample now a b c d hob, edgeUpdate_onBatt_id s h2]
  constructor
  · rw [(statusCheck_fst_fields _ _ _ _ _).2.2.2.2, batteryBranch_shutdown_flag]
    dsimp only
    rw [hf]
    simp [hv]
  · rw [(statusCheck_fst_fields _ _ _ _ _).1, (batteryBranch_fst_fields _ _ _ _ _).1]

/-- Ticks without the stop condition keep the stop flag unset across a
whole run inside an episode. -/
theorem stopFlagStaysUnset (cfg : Config) :
    ∀ (ts : List Tick) (s : LoopState), s.array_stopped_this_outage = false →
      s.last_on_battery = some true →
      (∀ t ∈ ts, tickNoStopCondition cfg t = true) →
      (runLoop cfg s ts).1.array_stopped_this_outage = false ∧
      (runLoop cfg s ts).1.last_on_battery = some true := by
  intro ts
  induction ts with
  | nil => intro s h1 h2 _; exact ⟨h1, h2⟩
  | cons t ts ih =>
    intro s h1 h2 h3
    have hrest := fun t' ht' => h3 t' (List.mem_cons_of_mem _ ht')
    have hcur := h3 t (List.mem_cons_self _ _)
    cases t with
    | fail =>
      rw [runLoop_cons]
      dsimp only
      rw [step_fail_eq]
      exact ih s h1 h2 hrest
    | ok sample now a b c d =>
      rw [tickNoStopCondition, Bool.and_eq_true, Bool.not_eq_true',
        decide_eq_false_iff_not] at hcur
      obtain ⟨hf, hl⟩ := step_onBatt_above_stop cfg s sample now a b c d
        hcur.1 h2 h1 hcur.2
      rw [runLoop_cons]
      dsimp only
      exact ih _ hf hl hrest

/-- Ticks without the shutdown condition keep the shutdown flag unset
across a whole run inside an episode. -/
theorem shutdownFlagStaysUnset (cfg : Config) :
    ∀ (ts : List Tick) (s : LoopState), s.nas_shutdown_this_outage = false →
      s.last_on_battery = some true →
      (∀ t ∈ ts, tickNoShutdownCondition cfg t = true) →
      (runLoop cfg s ts).1.nas_shutdown_this_outage = false ∧
      (runLoop cfg s ts).1.last_on_battery = some true := by
  intro ts
  induction ts with
  | nil => intro s h1 h2 _; exact ⟨h1, h2⟩
  | cons t ts ih =>
    intro s h1 h2 h3
    have hrest := fun t' ht' => h3 t' (List.mem_cons_of_mem _ ht')
    have hcur := h3 t (List.mem_cons_self _ _)
    cases t with
    | fail =>
      rw [runLoop_cons]
      dsimp only
      rw [step_fail_eq]
      exact ih s h1 h2 hrest
    | ok sample now a b c d =>
      rw [tickNoShutdownCondition, Bool.and_eq_true, Bool.not_eq_true',
        decide_eq_false_iff_not] at hcur
      obtain ⟨hf, hl⟩ := step_onBatt_above_shutdown cfg s sample now a b c d
        hcur.1 h2 h1 hcur.2
      rw [runLoop_cons]
      dsimp only
      exact ih _ hf hl hrest

/-- A low-voltage on-battery tick with the stop flag unset and a failing
stop call attempts the stop, leaves the flag unset, and continues the
episode. -/
theorem step_onBatt_stop_fails (cfg : Config) (s : LoopState) (sample : Q1Sample)
    (now : Dec) (b c d : Bool) (hob : sample.on_battery = true)
    (hf : s.array_stopped_this_outage = false)
    (hv : sample.battery_voltage ≤ cfg.low_batt_volt) :
    (step cfg s (Tick.ok sample now false b c d)).2.stop_attempted = true ∧
    (step cfg s (Tick.ok sample now false b c d)).1.array_stopped_this_outage = false ∧
    (step cfg s (Tick.ok sample now false b c d)).1.last_on_battery = some true := by
  have h2f : (edgeUpdate s true).array_stopped_this_outage = false :=
    edgeUpdate_stop_flag_false s true hf
  rw [step_ok_true cfg s sample now false b c d hob]
  refine ⟨?_, ?_, ?_⟩
  · rw [(statusCheck_snd_fields _ _ _ _ _).1, (batteryBranch_events _ _ _ _ _).1]
    dsimp only
    rw [h2f]
    simp [hv]
  · rw [(statusCheck_fst_fields _ _ _ _ _).2.2.2.1, batteryBranch_stop_flag]
    dsimp only
    rw [h2f]
    simp
  · rw [(statusCheck_fst_fields _ _ _ _ _).1, (batteryBranch_fst_fields _ _ _ _ _).1]

/-- A low-voltage on-battery tick with the shutdown flag unset and a
failing shutdown call attempts the shutdown, leaves the flag unset, and
continues the episode. -/
theorem step_onBatt_shutdown_fails (cfg : Config) (s : LoopState) (sample : Q1Sample)
    (now : Dec) (a b d : Bool) (hob : sample.on_battery = true)
    (hf : s.nas_shutdown_this_outage = false)
    (hv : sample.battery_voltage ≤ cfg.extra_low_batt_volt) :
    (step cfg s (Tick.ok sample now a b false d)).2.shutdown_attempted = true ∧
    (step cfg s (Tick.ok sample now a b false d)).1.nas_shutdown_this_outage = false ∧
    (step cfg s (Tick.ok sample now a b false d)).1.last_on_battery = some true := by
  have h2f : (edgeUpdate s true).nas_shutdown_this_outage = false :=
    edgeUpdate_shutdown_flag_false s true hf
  rw [step_ok_true cfg s sample now a b false d hob]
  refine ⟨?_, ?_, ?_⟩
  · rw [(statusCheck_snd_fields _ _ _ _ _).2.1, (batteryBranch_events _ _ _ _ _).2.1]
    dsimp only
    rw [h2f]
    simp [hv]
  · rw [(statusCheck_fst_fields _ _ _ _ _).2.2.2.2, batteryBranch_shutdown_flag]
    dsimp only
    rw [h2f]
    simp
  · rw [(statusCheck_fst_fields _ _ _ _ _).1, (batteryBranch_fst_fields _ _ _ _ _).1]

/-- A low-voltage on-battery tick with the stop flag unset attempts a
stop. -/
theorem step_onBatt_attempts_stop (cfg : Config) (s : LoopState) (sample : Q1Sample)
    (now : Dec) (a b c d : Bool) (hob : sample.on_battery = true)
    (h2 : s.last_on_battery = some true)
    (hf : s.array_stopped_this_outage = false)
    (hv : sample.battery_voltage ≤ cfg.low_batt_volt) :
    (step cfg s (Tick.ok sample now a b c d)).2.stop_attempted = true := by
  rw [step_ok_true cfg s sample now a b c d hob, edgeUpdate_onBatt_id s h2,
    (statusCheck_snd_fields _ _ _ _ _).1, (batteryBranch_events _ _ _ _ _).1]
  dsimp only
  rw [hf]
  simp [hv]

/-- A low-voltage on-battery tick with the shutdown flag unset attempts a
shutdown. -/
theorem step_onBatt_attempts_shutdown (cfg : Config) (s : LoopState) (sample : Q1Sample)
    (now : Dec) (a b c d : Bool) (hob : sample.on_battery = true)
    (h2 : s.last_on_battery = some true)
    (hf : s.nas_shutdown_this_outage = false)
    (hv : sample.battery_voltage ≤ cfg.extra_low_batt_volt) :
    (step cfg s (Tick.ok sample now a b c d)).2.shutdown_attempted = true := by
  rw [step_ok_true cfg s sample now a b c d hob, edgeUpdate_onBatt_id s h2,
    (statusCheck_snd_fields _ _ _ _ _).2.1, (batteryBranch_events _ _ _ _ _).2.1]
  dsimp only
  rw [hf]
  simp [hv]

end NasMonitor

/-- C3: while on battery, a failed array-stop invocation leaves the
episode stop flag unset, and the next tick of the episode whose sample is
again at or below low_batt_volt (after any ticks not meeting the
condition) invokes array-stop again; the same set-on-success and
retry-on-failure rule holds for shutdown at extra_low_batt_volt. -/
theorem c3_retry_on_failure :
    (∀ (cfg : NasMonitor.Config) (s : NasMonitor.LoopState) (sample1 : Q1Sample)
        (now1 : Dec) (b1 e1 d1 : Bool) (mid : List NasMonitor.Tick)
        (sample2 : Q1Sample) (now2 : Dec) (a2 b2 e2 d2 : Bool),
      sample1.on_battery = true →
      s.array_stopped_this_outage = false →
      sample1.battery_voltage ≤ cfg.low_batt_volt →
      (∀ t ∈ mid, NasMonitor.tickNoStopCondition cfg t = true) →
      sample2.on_battery = true →
      sample2.battery_voltage ≤ cfg.low_batt_volt →
      (NasMonitor.step cfg s (NasMonitor.Tick.ok sample1 now1 false b1 e1 d1)).2.stop_attempted = true ∧
      (NasMonitor.step cfg s (NasMonitor.Tick.ok sample1 now1 false b1 e1 d1)).1.array_stopped_this_outage = false ∧
      (NasMonitor.step cfg
        (NasMonitor.runLoop cfg
          (NasMonitor.step cfg s (NasMonitor.Tick.ok sample1 now1 false b1 e1 d1)).1 mid).1
        (NasMonitor.Tick.ok sample2 now2 a2 b2 e2 d2)).2.stop_attempted = true) ∧
    (∀ (cfg : NasMonitor.Config) (s : NasMonitor.LoopState) (sample1 : Q1Sample)
        (now1 : Dec) (a1 b1 d1 : Bool) (mid : List NasMonitor.Tick)
        (sample2 : Q1Sample) (now2 : Dec) (a2 b2 e2 d2 : Bool),
      sample1.on_battery = true →
      s.nas_shutdown_this_outage = false →
      sample1.battery_voltage ≤ cfg.extra_low_batt_volt →
      (∀ t ∈ mid, NasMonitor.tickNoShutdownCondition cfg t = true) →
      sample2.on_battery = true →
      sample2.battery_voltage ≤ cfg.extra_low_batt_volt →
      (NasMonitor.step cfg s (NasMonitor.Tick.ok sample1 now1 a1 b1 false d1)).2.shutdown_attempted = true ∧
      (NasMonitor.step cfg s (NasMonitor.Tick.ok sample1 now1 a1 b1 false d1)).1.nas_shutdown_this_outage = false ∧
      (NasMonitor.step cfg
        (NasMonitor.runLoop cfg
          (NasMonitor.step cfg s (NasMonitor.Tick.ok sample1 now1 a1 b1 false d1)).1 mid).1
        (NasMonitor.Tick.ok sample2 now2 a2 b2 e2 d2)).2.shutdown_attempted = true) := by
  constructor
  · intro cfg s sample1 now1 b1 e1 d1 mid sample2 now2 a2 b2 e2 d2
      hob1 hf hv1 hmid hob2 hv2
    obtain ⟨hatt, hf1, hl1⟩ :=
      NasMonitor.step_onBatt_stop_fails cfg s sample1 now1 b1 e1 d1 hob1 hf hv1
    obtain ⟨hfm, hlm⟩ := NasMonitor.stopFlagStaysUnset cfg mid _ hf1 hl1 hmid
    exact ⟨hatt, hf1,
      NasMonitor.step_onBatt_attempts_stop cfg _ sample2 now2 a2 b2 e2 d2 hob2 hlm hfm hv2⟩
  · intro cfg s sample1 now1 a1 b1 d1 mid sample2 now2 a2 b2 e2 d2
      hob1 hf hv1 hmid hob2 hv2
    obtain ⟨hatt, hf1, hl1⟩ :=
      NasMonitor.step_onBatt_shutdown_fails cfg s sample1 now1 a1 b1 d1 hob1 hf hv1
    obtain ⟨hfm, hlm⟩ := NasMonitor.shutdownFlagStaysUnset cfg mid _ hf1 hl1 hmid
    exact ⟨hatt, hf1,
      NasMonitor.step_onBatt_attempts_shutdown cfg _ sample2 now2 a2 b2 e2 d2 hob2 hlm hfm hv2⟩

/-- Witness instantiating C3: a failed stop at 24.0 V on battery, one
intervening on-battery tick at 25.0 V, then a retry at 24.6 V; and the
shutdown analogue at 22.0 V with an intervening tick at 23.0 V. -/
theorem c3_retry_on_failure_witness :
    ((NasMonitor.step NasMonitor.scenarioCfg (NasMonitor.initState ⟨1000, 0⟩)
      (NasMonitor.Tick.ok (NasMonitor.mkSample true ⟨240, 1⟩) ⟨1000, 0⟩ false true true false)).2.stop_attempted = true ∧
     (NasMonitor.step NasMonitor.scenarioCfg (NasMonitor.initState ⟨1000, 0⟩)
      (NasMonitor.Tick.ok (NasMonitor.mkSample true ⟨240, 1⟩) ⟨1000, 0⟩ false true true false)).1.array_stopped_this_outage = false ∧
     (NasMonitor.step NasMonitor.scenarioCfg
       (NasMonitor.runLoop NasMonitor.scenarioCfg
         (NasMonitor.step NasMonitor.scenarioCfg (NasMonitor.initState ⟨1000, 0⟩)
           (NasMonitor.Tick.ok (NasMonitor.mkSample true ⟨240, 1⟩) ⟨1000, 0⟩ false true true false)).1
         [NasMonitor.Tick.ok (NasMonitor.mkSample true ⟨250, 1⟩) ⟨1002, 0⟩ true true true false]).1
       (NasMonitor.Tick.ok (NasMonitor.mkSample true ⟨246, 1⟩) ⟨1004, 0⟩ true true true false)).2.stop_attempted = true) ∧
    ((NasMonitor.step NasMonitor.scenarioCfg (NasMonitor.initState ⟨1000, 0⟩)
      (NasMonitor.Tick.ok (NasMonitor.mkSample true ⟨220, 1⟩) ⟨1000, 0⟩ true true false false)).2.shutdown_attempted = true ∧
     (NasMonitor.step NasMonitor.scenarioCfg (NasMonitor.initState ⟨1000, 0⟩)
      (NasMonitor.Tick.ok (NasMonitor.mkSample true ⟨220, 1⟩) ⟨1000, 0⟩ true true false false)).1.nas_shutdown_this_outage = false ∧
     (NasMonitor.step NasMonitor.scenarioCfg
       (NasMonitor.runLoop NasMonitor.scenarioCfg
         (NasMonitor.step NasMonitor.scenarioCfg (NasMonitor.initState ⟨1000, 0⟩)
           (NasMonitor.Tick.ok (NasMonitor.mkSample true ⟨220, 1⟩) ⟨1000, 0⟩ true true false false)).1
         [NasMonitor.Tick.ok (NasMonitor.mkSample true ⟨230, 1⟩) ⟨1002, 0⟩ true true true false]).1
       (NasMonitor.Tick.ok (NasMonitor.mkSample true ⟨219, 1⟩) ⟨1004, 0⟩ true true true false)).2.shutdown_attempted = true) :=
  ⟨c3_retry_on_failure.1 _ _ _ _ _ _ _ _ _ _ _ _ _ _
      (by decide) (by decide) (by decide) (by decide) (by decide) (by decide),
   c3_retry_on_failure.2 _ _ _ _ _ _ _ _ _ _ _ _ _ _
      (by decide) (by decide) (by decide) (by decide) (by decide) (by decide)⟩

namespace NasMonitor

/-- Thirty-five mains ticks at 23.5 V, two seconds apart, in which every
status query would report the array as started and every start call
succeeds. -/
def c1Ticks : List Tick :=
  (List.range 35).map fun k =>
    Tick.ok (mkSample false ⟨235, 1⟩) ⟨1000 + 2 * (k : ℤ), 0⟩ true true true true

end NasMonitor

set_option maxRecDepth 6000 in
/-- C1 counterexample: in the run below every status observation reports
started = true, at least one such observation occurs, and yet a further
array-start attempt is issued after the first started = true observation
(at 68 seconds, once the 60 second retry floor elapses); the source never
consults the polled array status when deciding to attempt a start, so
confirmation does not end the re-attempts. -/
theorem c1_counterexample :
    ((NasMonitor.runLoop NasMonitor.scenarioCfg (NasMonitor.initState ⟨1000, 0⟩)
        NasMonitor.c1Ticks).2.all fun e => !e.status_checked || e.status_started) = true ∧
    ((NasMonitor.runLoop NasMonitor.scenarioCfg (NasMonitor.initState ⟨1000, 0⟩)
        NasMonitor.c1Ticks).2.any fun e => e.status_checked) = true ∧
    (((NasMonitor.runLoop NasMonitor.scenarioCfg (NasMonitor.initState ⟨1000, 0⟩)
        NasMonitor.c1Ticks).2.dropWhile fun e => !e.status_checked).any
      fun e => e.start_attempted) = true := by
  refine ⟨by decide, by decide, by decide⟩

/-- C1 (amended): array-start attempts are governed solely by the
stability timer and the retry floor; the independently polled array
status never gates them.  Changing the value a status query would report
changes neither the successor state nor any of the three action
decisions of the tick. -/
theorem c1_start_ignores_array_status :
    ∀ (cfg : NasMonitor.Config) (s : NasMonitor.LoopState) (sample : Q1Sample)
      (now : Dec) (a b c d1 d2 : Bool),
      (NasMonitor.step cfg s (NasMonitor.Tick.ok sample now a b c d1)).1 =
        (NasMonitor.step cfg s (NasMonitor.Tick.ok sample now a b c d2)).1 ∧
      (NasMonitor.step cfg s (NasMonitor.Tick.ok sample now a b c d1)).2.start_attempted =
        (NasMonitor.step cfg s (NasMonitor.Tick.ok sample now a b c d2)).2.start_attempted ∧
      (NasMonitor.step cfg s (NasMonitor.Tick.ok sample now a b c d1)).2.stop_attempted =
        (NasMonitor.step cfg s (NasMonitor.Tick.ok sample now a b c d2)).2.stop_attempted ∧
      (NasMonitor.step cfg s (NasMonitor.Tick.ok sample now a b c d1)).2.shutdown_attempted =
        (NasMonitor.step cfg s (NasMonitor.Tick.ok sample now a b c d2)).2.shutdown_attempted := by
  intro cfg s sample now a b c d1 d2
  rw [NasMonitor.step_ok_eq cfg s sample now a b c d1,
    NasMonitor.step_ok_eq cfg s sample now a b c d2]
  dsimp only
  refine ⟨NasMonitor.statusCheck_fst_ignores_status _ _ _ _ _ _, ?_, ?_, ?_⟩
  · rw [(NasMonitor.statusCheck_snd_fields _ _ _ _ _).2.2,
      (NasMonitor.statusCheck_snd_fields _ _ _ _ _).2.2]
  · rw [(NasMonitor.statusCheck_snd_fields _ _ _ _ _).1,
      (NasMonitor.statusCheck_snd_fields _ _ _ _ _).1]
  · rw [(NasMonitor.statusCheck_snd_fields _ _ _ _ _).2.1,
      (NasMonitor.statusCheck_snd_fields _ _ _ _ _).2.1]
